import Mathlib

/-!
Verification of the score-reconciliation pipeline of `src/app.py`.

The program is a single-file pandas/Streamlit application.  We embed the
tabular data model (a data frame is a list of column names together with
rows of optional string cells, a missing cell playing the role of pandas
`NaN`) and the reconciliation steps of lines 71-132 of `app.py` as
executable Lean functions, and prove the specification's claims about them.
-/

/-- A cell of a data frame: `none` models pandas `NaN`, `some s` a string
value (all concrete cell values flowing through this program are text). -/
abbrev Cell := Option String

/-- A tabular dataset: column names plus rows of cells, row `i`'s `j`-th
entry belonging to column `j`. -/
structure DataFrame where
  cols : List String
  rows : List (List Cell)
deriving DecidableEq

/-- Characters stripped by Python's `str.strip()` with no argument. -/
def pyWhite (c : Char) : Bool :=
  c = ' ' ∨ c = '\t' ∨ c = '\n' ∨ c = '\r' ∨ c = '\x0b' ∨ c = '\x0c'

/-- Python `str.strip()` on a character list: drop whitespace at both ends. -/
def pyStripList (l : List Char) : List Char :=
  ((l.dropWhile pyWhite).reverse.dropWhile pyWhite).reverse

/-- Python `str.strip()`. -/
def pyStrip (s : String) : String := ⟨pyStripList s.data⟩

/-- Python `str.lower()` (ASCII case folding, which covers every value this
program handles). -/
def pyLower (s : String) : String := ⟨s.data.map Char.toLower⟩

/-- Python `str.replace(".0", "", regex=False)` on a character list:
remove every occurrence of the two-character pattern `.0`, scanning left to
right without overlap (line 85 of `app.py`). -/
def stripDotZeroList : List Char → List Char
  | [] => []
  | [ c ] => [ c ]
  | c :: c2 :: rest =>
      if c = '.' ∧ c2 = '0' then stripDotZeroList rest
      else c :: stripDotZeroList (c2 :: rest)

/-- Python `str.replace(".0", "", regex=False)` (line 85 of `app.py`). -/
def stripDotZero (s : String) : String := ⟨stripDotZeroList s.data⟩

/-- Whether the two-character pattern `.0` occurs in a character list. -/
def hasDotZero : List Char → Bool
  | [] => false
  | [ _ ] => false
  | c :: c2 :: rest =>
      if c = '.' ∧ c2 = '0' then true else hasDotZero (c2 :: rest)

/-- Python `str.replace(",", "")` (line 89 of `app.py`): drop every comma. -/
def removeCommas (s : String) : String := ⟨s.data.filter (fun c => c ≠ ',')⟩

/-- Pandas `astype(str)` applied to one cell: `NaN` prints as the literal
string `nan`, any other cell is already text. -/
def astypeStr : Cell → String
  | none => "nan"
  | some s => s

/-- Email normalization of lines 77-78 of `app.py`:
`astype(str).str.strip().str.lower()`. -/
def normEmail (c : Cell) : String := pyLower (pyStrip (astypeStr c))

/-- Grade-book student-identifier normalization of line 85 of `app.py`:
`astype(str).str.strip().str.replace(".0", "", regex=False)`, acting on a
string value. -/
def idNormStr (s : String) : String := stripDotZero (pyStrip s)

/-- Grade-book student-identifier normalization of line 85 of `app.py`,
acting on a cell. -/
def idNorm (c : Cell) : String := idNormStr (astypeStr c)

/-- Live-scores student-identifier normalization of line 86 of `app.py`:
`astype(str).str.strip()` with no further rewriting. -/
def idNormLive (c : Cell) : String := pyStrip (astypeStr c)

/-- Decimal digits of a character list read as a natural number. -/
def digitsToNat (l : List Char) : Nat :=
  l.foldl (fun a c => a * 10 + (c.toNat - 48)) 0

/-- Exponent suffix of a Python float literal: optional sign then at least
one digit, consuming the whole remainder. -/
def parseExpPart : List Char → Option Int
  | '-' :: r =>
      if r ≠ [] ∧ r.dropWhile Char.isDigit = [] then
        some (-(digitsToNat (r.takeWhile Char.isDigit) : Int))
      else none
  | '+' :: r =>
      if r ≠ [] ∧ r.dropWhile Char.isDigit = [] then
        some ((digitsToNat (r.takeWhile Char.isDigit) : Int))
      else none
  | r =>
      if r ≠ [] ∧ r.dropWhile Char.isDigit = [] then
        some ((digitsToNat (r.takeWhile Char.isDigit) : Int))
      else none

/-- `pd.to_numeric(errors="coerce")` on a stripped string, modelled for
decimal literals: an optional sign, digits with an optional fractional
part (at least one digit overall), and an optional exponent.  The result
is `(negative, mantissa digits as a natural number, decimal exponent)`, so
the value denoted is `± mantissa * 10 ^ exponent`; `none` models `NaN`. -/
def parseDec (s : String) : Option (Bool × Nat × Int) :=
  let l := s.data
  let neg : Bool := match l with
    | '-' :: _ => true
    | _ => false
  let l1 : List Char := match l with
    | '-' :: r => r
    | '+' :: r => r
    | r => r
  let ip := l1.takeWhile Char.isDigit
  let l2 := l1.dropWhile Char.isDigit
  let fp : List Char := match l2 with
    | '.' :: r => r.takeWhile Char.isDigit
    | _ => []
  let l3 : List Char := match l2 with
    | '.' :: r => r.dropWhile Char.isDigit
    | r => r
  if ip = [] ∧ fp = [] then none
  else
    let mant := digitsToNat (ip ++ fp)
    let e0 : Int := -(fp.length : Int)
    match l3 with
    | [] => some (neg, mant, e0)
    | 'e' :: r => (parseExpPart r).map (fun ex => (neg, mant, e0 + ex))
    | 'E' :: r => (parseExpPart r).map (fun ex => (neg, mant, e0 + ex))
    | _ => none

/-- Round `n / 10 ^ k` to the nearest natural number, ties to even (the
rounding performed by `Series.round`). -/
def roundHalfEvenDiv (n k : Nat) : Nat :=
  if k = 0 then n
  else
    let d := 10 ^ k
    let q := n / d
    let r := n % d
    if 2 * r < d then q
    else if d < 2 * r then q + 1
    else if q % 2 = 0 then q else q + 1

/-- `round(mantissa * 10 ^ e, 2)` expressed in hundredths, as a natural
number (half-to-even rounding). -/
def scaleRound (mant : Nat) (e : Int) : Nat :=
  if 0 ≤ e + 2 then mant * 10 ^ (e + 2).toNat
  else roundHalfEvenDiv mant (-(e + 2)).toNat

/-- The `Total` cleaning of lines 89-93 of `app.py`:
`astype(str).str.replace(",", "").str.strip()`, then
`pd.to_numeric(errors="coerce").fillna(0)`, then `.round(2)`.  The result
is the score in hundredths (an integer, the value being exactly
representable at two decimals after rounding); ties round to even. -/
def cleanTotal (c : Cell) : Int :=
  match parseDec (pyStrip (removeCommas (astypeStr c))) with
  | none => 0
  | some (neg, mant, e) =>
      (if neg then -1 else 1) * (scaleRound mant e : Int)

/-- One decimal digit as a character. -/
def digitChar : Nat → Char
  | 0 => '0'
  | 1 => '1'
  | 2 => '2'
  | 3 => '3'
  | 4 => '4'
  | 5 => '5'
  | 6 => '6'
  | 7 => '7'
  | 8 => '8'
  | _ => '9'

/-- Decimal digits of a natural number (with fuel equal to the number to
keep the recursion structural). -/
def natDigitsAux : Nat → Nat → List Char
  | 0, _ => []
  | fuel + 1, n =>
      if n < 10 then [ digitChar n ]
      else natDigitsAux fuel (n / 10) ++ [ digitChar (n % 10) ]

/-- Decimal rendering of a natural number. -/
def natToStr (n : Nat) : String := ⟨natDigitsAux (n + 1) n⟩

/-- Python `f"{x:.2f}"` applied to a score held in hundredths (the shape
every `New Score` value has after `round(2)`): line 116 of `app.py`. -/
def format2f (h : Int) : String :=
  (if h < 0 then "-" else "") ++ natToStr (h.natAbs / 100) ++ "." ++
    (if h.natAbs % 100 < 10 then "0" else "") ++ natToStr (h.natAbs % 100)

/-- Index of the first column with the given name, if any. -/
def colIdx : List String → String → Option Nat
  | [], _ => none
  | c :: rest, n =>
      if c = n then some 0 else (colIdx rest n).map (fun i => i + 1)

/-- Read a column of a data frame as a list of cells; a missing column is
the embedded image of a pandas `KeyError`. -/
def getCol (df : DataFrame) (n : String) : Except String (List Cell) :=
  match colIdx df.cols n with
  | none => Except.error ("missing column: " ++ n)
  | some i => Except.ok (df.rows.map (fun r => r.getD i none))

/-- Column assignment `df[n] = vals`: overwrite the column in place when
present, append a new last column otherwise. -/
def setCol (df : DataFrame) (n : String) (vals : List Cell) : DataFrame :=
  match colIdx df.cols n with
  | some i => ⟨df.cols, (df.rows.zip vals).map (fun p => p.1.set i p.2)⟩
  | none => ⟨df.cols ++ [ n ], (df.rows.zip vals).map (fun p => p.1 ++ [ p.2 ])⟩

/-- `df.drop(columns=names)` (line 120 of `app.py`). -/
def dropCols (df : DataFrame) (names : List String) : DataFrame :=
  ⟨df.cols.filter (fun c => !(names.contains c)),
   df.rows.map (fun r =>
     ((df.cols.zip r).filter (fun p => !(names.contains p.1))).map Prod.snd)⟩

/-- Header normalization of lines 71-73 of `app.py`:
`df.columns = df.columns.str.strip()`. -/
def stripCols (df : DataFrame) : DataFrame := ⟨df.cols.map pyStrip, df.rows⟩

/-- Lookup in an association list where a later binding of a key shadows an
earlier one, mirroring `dict(zip(keys, values))` followed by `dict.get`. -/
def lookupLast {α : Type} : List (String × α) → String → Option α
  | [], _ => none
  | (k, v) :: rest, n =>
      match lookupLast rest n with
      | some r => some r
      | none => if k = n then some v else none

/-- The email-to-identifier dictionary of line 81 of `app.py`: normalized
mapping-sheet emails zipped with the raw identifier cells. -/
def email2idPairs (emailsM idsM : List Cell) : List (String × Cell) :=
  (emailsM.map normEmail).zip idsM

/-- `df_a["SIS Login ID"].map(email_to_id)` on one row (line 82 of
`app.py`): a missing key, like a mapping entry whose value is itself
`NaN`, yields `NaN`. -/
def mappedId (m : List (String × Cell)) (c : Cell) : Cell :=
  Option.join (lookupLast m (normEmail c))

/-- The normalized student identifier a grade-book row ends up with after
lines 82 and 85 of `app.py`. -/
def gradeId (m : List (String × Cell)) (c : Cell) : String :=
  idNorm (mappedId m c)

/-- The score dictionary of line 96 of `app.py`: normalized live-scores
identifiers zipped with cleaned totals (in hundredths). -/
def scorePairsOf (idsB tots : List Cell) : List (String × Int) :=
  (idsB.map idNormLive).zip (tots.map cleanTotal)

/-- The `New Score` resolved for one grade-book row (line 99 of
`app.py`): the score-dictionary entry of the row's normalized identifier. -/
def rowNewScore (emailsM idsM idsB tots : List Cell) (c : Cell) : Option Int :=
  lookupLast (scorePairsOf idsB tots) (gradeId (email2idPairs emailsM idsM) c)

/-- The `New Score` column over all grade-book rows. -/
def newScoresOf (emailsM idsM emailsA idsB tots : List Cell) : List (Option Int) :=
  emailsA.map (rowNewScore emailsM idsM idsB tots)

/-- The per-row conditional substitution of lines 115-118 of `app.py`:
replace the cell with the new score formatted to two decimals exactly when
the new score is non-null and the cell's text strips to `0.00`. -/
def updateCell (ns : Option Int) (v : Cell) : Cell :=
  match ns with
  | some x => if pyStrip (astypeStr v) = "0.00" then some (format2f x) else v
  | none => v

/-- The grade book after the join columns are attached (lines 77-99 of
`app.py`): email column normalized in place, `Student ID Number` set to
the mapped then normalized identifiers, `New Score` set to the resolved
scores (formatted where present, `NaN` otherwise). -/
def joinedGradeBook (dfA1 : DataFrame) (emailsA emailsM idsM idsB tots : List Cell) : DataFrame :=
  setCol
    (setCol
      (setCol
        (setCol dfA1 "SIS Login ID" (emailsA.map (fun c => some (normEmail c))))
        "Student ID Number" (emailsA.map (mappedId (email2idPairs emailsM idsM))))
      "Student ID Number" (emailsA.map (fun c => some (gradeId (email2idPairs emailsM idsM) c))))
    "New Score" ((newScoresOf emailsM idsM emailsA idsB tots).map (fun o => o.map format2f))

/-- Result of a successful reconciliation: the updated grade book with the
two temporary join columns dropped, plus the summary counts. -/
structure ReconOut where
  out : DataFrame
  updated : Nat
  notFound : Nat
deriving DecidableEq

/-- The reconciliation of lines 71-132 of `app.py`: strip headers, look up
the required columns (a miss embeds the pandas `KeyError`), build the two
dictionaries, attach identifier and new score, conditionally substitute
into the chosen target column, drop the join columns and count. -/
def reconcile (dfA dfB dfM : DataFrame) (uc : String) : Except String ReconOut :=
  match getCol (stripCols dfA) "SIS Login ID", getCol (stripCols dfM) "email",
      getCol (stripCols dfM) "Student ID Number",
      getCol (stripCols dfB) "Student ID Number", getCol (stripCols dfB) "Total" with
  | Except.ok emailsA, Except.ok emailsM, Except.ok idsM, Except.ok idsB, Except.ok tots =>
      match getCol (joinedGradeBook (stripCols dfA) emailsA emailsM idsM idsB tots) uc with
      | Except.error e => Except.error e
      | Except.ok colVals =>
          Except.ok
            ⟨dropCols
                (setCol (joinedGradeBook (stripCols dfA) emailsA emailsM idsM idsB tots) uc
                  (List.zipWith updateCell (newScoresOf emailsM idsM emailsA idsB tots) colVals))
                [ "Student ID Number", "New Score" ],
              ((newScoresOf emailsM idsM emailsA idsB tots).filter Option.isSome).length,
              ((newScoresOf emailsM idsM emailsA idsB tots).filter Option.isNone).length⟩
  | Except.error e, _, _, _, _ => Except.error e
  | _, Except.error e, _, _, _ => Except.error e
  | _, _, Except.error e, _, _ => Except.error e
  | _, _, _, Except.error e, _ => Except.error e
  | _, _, _, _, Except.error e => Except.error e

/-- What one triggering of the update action renders: an updated dataset
with its summary, an error message with no dataset, or the warning that
the mapping sheet could not be loaded. -/
inductive AppResult where
  | success (r : ReconOut) : AppResult
  | failure (msg : String) : AppResult
  | mappingWarning : AppResult
deriving DecidableEq

/-- The action boundary of `app.py`: the mapping sheet either fails to
load (the `except` of lines 39-41 yields an empty frame) or is empty, in
which case only a warning is shown (line 150); otherwise the whole
reconciliation runs inside `try` (lines 69-148) and any raised error is
rendered as a message with no output produced. -/
def runApp (dfA dfB : DataFrame) (mapping : Except String DataFrame) (uc : String) : AppResult :=
  match mapping with
  | Except.error _ => AppResult.mappingWarning
  | Except.ok m =>
      if m.rows = [] then AppResult.mappingWarning
      else
        match reconcile dfA dfB m uc with
        | Except.ok r => AppResult.success r
        | Except.error e => AppResult.failure e

/-- The grade book of the specification's worked example: one row with
email `" A@X.com "` and target column `Grade` holding `"0.00"`. -/
def exGradeBook : DataFrame :=
  ⟨[ "SIS Login ID", "Grade" ], [ [ some " A@X.com ", some "0.00" ] ]⟩

/-- The live scores of the worked example: identifier `"1001"`, `Total`
`"85,0"`. -/
def exLiveScores : DataFrame :=
  ⟨[ "Student ID Number", "Total" ], [ [ some "1001", some "85,0" ] ]⟩

/-- The identity map of the worked example: `a@x.com` paired with
`"1001.0"`. -/
def exIdentityMap : DataFrame :=
  ⟨[ "email", "Student ID Number" ], [ [ some "a@x.com", some "1001.0" ] ]⟩

/-- A small grade book with one resolvable and one unresolvable row. -/
def wGradeBook : DataFrame :=
  ⟨[ "SIS Login ID", "Score" ],
   [ [ some "s@u.edu", some "0.00" ], [ some "t@u.edu", some "5" ] ]⟩

/-- A small live-scores sheet with a single row. -/
def wLiveScores : DataFrame :=
  ⟨[ "Student ID Number", "Total" ], [ [ some "7", some "10" ] ]⟩

/-- A small identity map with a single entry. -/
def wIdentityMap : DataFrame :=
  ⟨[ "email", "Student ID Number" ], [ [ some "s@u.edu", some "7" ] ]⟩

/-- The value `reconcile` produces on the small fixtures above. -/
def wRecon : ReconOut :=
  ⟨⟨[ "SIS Login ID", "Score" ],
    [ [ some "s@u.edu", some "10.00" ], [ some "t@u.edu", some "5" ] ]⟩, 1, 1⟩

/-- A grade book whose email header differs from `SIS Login ID` only in
letter case. -/
def caseGradeBook : DataFrame :=
  ⟨[ "sis login id", "Score" ], [ [ some "s@u.edu", some "0.00" ] ]⟩

/-- A grade book whose headers differ from the expected names only by
surrounding whitespace. -/
def wsGradeBook : DataFrame :=
  ⟨[ "  SIS Login ID ", " Score " ], [ [ some "s@u.edu", some "0.00" ] ]⟩

theorem filterSome_add_filterNone {α : Type} (l : List (Option α)) :
    (l.filter Option.isSome).length + (l.filter Option.isNone).length = l.length := by
  induction l with
  | nil => rfl
  | cons o t ih =>
      cases o <;> simp [List.filter_cons, Option.isSome, Option.isNone] <;> omega

theorem colIdx_of_mem {n : String} {l : List String} (h : n ∈ l) :
    ∃ i, colIdx l n = some i := by
  induction l with
  | nil => cases h
  | cons c t ih =>
      by_cases hc : c = n
      · exact ⟨0, by simp [colIdx, hc]⟩
      · rcases List.mem_cons.mp h with h1 | h2
        · exact absurd h1.symm hc
        · rcases ih h2 with ⟨i, hi⟩
          exact ⟨i + 1, by simp [colIdx, hc, hi]⟩

theorem colIdx_some_mem {l : List String} {n : String} {i : Nat}
    (h : colIdx l n = some i) : n ∈ l := by
  induction l generalizing i with
  | nil => exact Option.noConfusion h
  | cons c t ih =>
      by_cases hc : c = n
      · exact hc ▸ List.mem_cons_self c t
      · simp only [colIdx, if_neg hc] at h
        cases ho : colIdx t n with
        | none => rw [ho] at h; simp at h
        | some j => exact List.mem_cons_of_mem c (ih ho)

theorem getCol_ok_length {df : DataFrame} {n : String} {l : List Cell}
    (h : getCol df n = Except.ok l) : l.length = df.rows.length := by
  unfold getCol at h
  split at h
  · exact Except.noConfusion h
  · injection h with h2
    rw [← h2]
    simp

theorem getCol_ok_of_mem {df : DataFrame} {n : String} (h : n ∈ df.cols) :
    ∃ l, getCol df n = Except.ok l := by
  rcases colIdx_of_mem h with ⟨i, hi⟩
  exact ⟨_, by unfold getCol; rw [hi]⟩

theorem getCol_ok_mem {df : DataFrame} {n : String} {l : List Cell}
    (h : getCol df n = Except.ok l) : n ∈ df.cols := by
  unfold getCol at h
  split at h
  · exact Except.noConfusion h
  · next i hi => exact colIdx_some_mem hi

theorem setCol_cols_of_mem {df : DataFrame} {n : String} (h : n ∈ df.cols)
    (v : List Cell) : (setCol df n v).cols = df.cols := by
  rcases colIdx_of_mem h with ⟨i, hi⟩
  simp [setCol, hi]

theorem setCol_cols_cases (df : DataFrame) (n : String) (v : List Cell) :
    (n ∈ df.cols ∧ (setCol df n v).cols = df.cols) ∨
      (setCol df n v).cols = df.cols ++ [ n ] := by
  cases hc : colIdx df.cols n with
  | some i => exact Or.inl ⟨colIdx_some_mem hc, by simp [setCol, hc]⟩
  | none => exact Or.inr (by simp [setCol, hc])

theorem mem_setCol_self (df : DataFrame) (n : String) (v : List Cell) :
    n ∈ (setCol df n v).cols := by
  rcases setCol_cols_cases df n v with ⟨h1, h2⟩ | h2
  · rw [h2]; exact h1
  · rw [h2]; exact List.mem_append_right _ (List.mem_singleton.mpr rfl)

theorem mem_setCol_of_mem {df : DataFrame} {x : String} (h : x ∈ df.cols)
    (n : String) (v : List Cell) : x ∈ (setCol df n v).cols := by
  rcases setCol_cols_cases df n v with ⟨_, h2⟩ | h2
  · rw [h2]; exact h
  · rw [h2]; exact List.mem_append_left _ h

theorem dropCols_cols (df : DataFrame) (names : List String) :
    (dropCols df names).cols = df.cols.filter (fun c => !(names.contains c)) := rfl

theorem stripDotZeroList_no_occ (l : List Char) (h : hasDotZero l = false) :
    stripDotZeroList l = l := by
  induction l with
  | nil => rfl
  | cons c rest ih =>
      cases rest with
      | nil => rfl
      | cons c2 rest2 =>
          by_cases hp : c = '.' ∧ c2 = '0'
          · simp only [hasDotZero, if_pos hp] at h
            exact Bool.noConfusion h
          · simp only [hasDotZero, if_neg hp] at h
            simp only [stripDotZeroList, if_neg hp]
            rw [ih h]

/-- Claim C1: for every grade-book row the update step replaces the target
cell with the row's new score formatted to two decimal places exactly when
a resolved new score is present and the existing value strips to `0.00`,
and otherwise returns the existing cell unchanged.  `updateCell` is the
per-row lambda of lines 115-118 of `app.py`, which `reconcile` applies to
every row of the chosen target column. -/
theorem c1_conditional_substitution (ns : Option Int) (v : Cell) :
    (∀ x : Int, ns = some x → pyStrip (astypeStr v) = "0.00" →
      updateCell ns v = some (format2f x)) ∧
    ((ns = none ∨ ¬ pyStrip (astypeStr v) = "0.00") → updateCell ns v = v) := by
  constructor
  · intro x hx hs
    subst hx
    simp [updateCell, hs]
  · intro h
    rcases h with h | h
    · subst h; rfl
    · cases ns with
      | none => rfl
      | some x => simp [updateCell, h]

/-- Witness for C1: a present score with a cell stripping to `0.00` is
replaced by the formatted score; an absent score leaves the cell alone. -/
theorem c1_conditional_substitution_witness :
    updateCell (some 8500) (some " 0.00 ") = some "85.00" ∧
    updateCell none (some "0.00") = some "0.00" := by
  constructor
  · have h := (c1_conditional_substitution (some 8500) (some " 0.00 ")).1 8500 rfl (by decide)
    rw [h]
    decide
  · exact (c1_conditional_substitution none (some "0.00")).2 (Or.inl rfl)

/-- Claim C2, evaluated at the failing input: the identifier normalization
of line 85 of `app.py` (`str.replace(".0", "", regex=False)`) removes the
non-trailing occurrence of `.0` inside `10.05`, producing `105` instead of
preserving the identifier as the specification requires. -/
theorem c2_interior_artifact_removed :
    idNormStr "10.05" = "105" ∧ ¬ idNormStr "10.05" = "10.05" := by decide

/-- Claim C3 counterexample: normalizing `..00` yields `.0` (deleting an
occurrence of `.0` glues a new one together), and normalizing that again
yields the empty string, so identifier normalization is not idempotent. -/
theorem c3_not_idempotent :
    ¬ idNormStr (idNormStr "..00") = idNormStr "..00" := by decide

/-- Claim C3 as amended: identifier normalization is idempotent on every
identifier whose normalized form contains no occurrence of `.0` and no
surrounding whitespace; in general deleting `.0` occurrences can create a
new occurrence or expose whitespace, so a second pass can shrink the value
further. -/
theorem c3_idempotent_when_artifact_free (s : String)
    (h1 : hasDotZero (idNormStr s).data = false)
    (h2 : pyStrip (idNormStr s) = idNormStr s) :
    idNormStr (idNormStr s) = idNormStr s := by
  have h3 : stripDotZeroList (idNormStr s).data = (idNormStr s).data :=
    stripDotZeroList_no_occ _ h1
  calc idNormStr (idNormStr s) = stripDotZero (pyStrip (idNormStr s)) := rfl
    _ = stripDotZero (idNormStr s) := by rw [h2]
    _ = ⟨(idNormStr s).data⟩ := by unfold stripDotZero; rw [h3]
    _ = idNormStr s := rfl

/-- Witness for the amended C3: the float-artifact identifier `1001.0`
normalizes to `1001`, which renormalizes unchanged. -/
theorem c3_idempotent_when_artifact_free_witness :
    idNormStr (idNormStr "1001.0") = idNormStr "1001.0" :=
  c3_idempotent_when_artifact_free "1001.0" (by decide) (by decide)

/-- Claim C4 counterexample: running the pipeline on the specification's
worked example yields `850.00` in the target column, not `85.00` — the
comma of `85,0` is removed as a thousands separator by line 89 of
`app.py`, so the total parses as 850. -/
theorem c4_worked_example_not_85 :
    reconcile exGradeBook exLiveScores exIdentityMap "Grade" =
      Except.ok ⟨⟨[ "SIS Login ID", "Grade" ],
        [ [ some "a@x.com", some "850.00" ] ]⟩, 1, 0⟩ ∧
    ¬ (some "850.00" : Cell) = some "85.00" :=
  ⟨rfl, by decide⟩

/-- Claim C4 as amended: the worked example resolves the row to identifier
`1001`; the comma of `85,0` is stripped as a thousands separator, so the
total becomes 850.00 (held as 85000 hundredths) and the output target
column becomes `850.00`. -/
theorem c4_amended_worked_example :
    gradeId (email2idPairs [ some "a@x.com" ] [ some "1001.0" ]) (some " A@X.com ") = "1001" ∧
    cleanTotal (some "85,0") = 85000 ∧
    reconcile exGradeBook exLiveScores exIdentityMap "Grade" =
      Except.ok ⟨⟨[ "SIS Login ID", "Grade" ],
        [ [ some "a@x.com", some "850.00" ] ]⟩, 1, 0⟩ :=
  ⟨by decide, by decide, rfl⟩

/-- Claim C6: total normalization strips commas, coerces to a number,
turns empty, missing or unparseable values into 0, and rounds to two
decimals with ties to even — the documented rounding mode, matching
`Series.round`.  Totals are held in hundredths: `1,234.5` gives 123450
(1234.50), `10.005` gives 1000 (10.00 under half-to-even). -/
theorem c6_total_normalization :
    cleanTotal (some "1,234.5") = 123450 ∧
    cleanTotal (some "") = 0 ∧
    cleanTotal none = 0 ∧
    cleanTotal (some "10.005") = 1000 ∧
    ∀ c : Cell, parseDec (pyStrip (removeCommas (astypeStr c))) = none → cleanTotal c = 0 := by
  refine ⟨by decide, by decide, by decide, by decide, ?_⟩
  intro c h
  unfold cleanTotal
  rw [h]

/-- Witness for C6: an unparseable total normalizes to 0. -/
theorem c6_total_normalization_witness : cleanTotal (some "abc") = 0 :=
  c6_total_normalization.2.2.2.2 (some "abc") (by decide)

/-- Claim C10: a grade-book row whose normalized email has no entry in the
identity map is mapped to `NaN`, which `astype(str)` renders as the
literal string `nan`; the live-scores normalization sends an empty
identifier cell to the same string, so when the score dictionary carries a
`nan` key every unresolved row resolves that entry as its new score and,
having a non-null score, is counted as updated. -/
theorem c10_unresolved_rows_match_nan (emailsM idsM idsB tots : List Cell) (c : Cell) (t : Int)
    (hmiss : lookupLast (email2idPairs emailsM idsM) (normEmail c) = none)
    (hnan : lookupLast (scorePairsOf idsB tots) "nan" = some t) :
    gradeId (email2idPairs emailsM idsM) c = "nan" ∧
    idNormLive none = "nan" ∧
    rowNewScore emailsM idsM idsB tots c = some t ∧
    (rowNewScore emailsM idsM idsB tots c).isSome = true := by
  have h1 : gradeId (email2idPairs emailsM idsM) c = "nan" := by
    unfold gradeId mappedId
    rw [hmiss]
    decide
  have h2 : rowNewScore emailsM idsM idsB tots c = some t := by
    unfold rowNewScore
    rw [h1]
    exact hnan
  exact ⟨h1, by decide, h2, by rw [h2]; rfl⟩

/-- Witness for C10: an unmatched email together with a live row whose
identifier cell is missing produces a resolved score of 85.00. -/
theorem c10_unresolved_rows_match_nan_witness :
    rowNewScore [ some "a@b.c" ] [ some "1" ] [ none ] [ some "85" ] (some "zz@q.r") = some 8500 :=
  (c10_unresolved_rows_match_nan [ some "a@b.c" ] [ some "1" ] [ none ] [ some "85" ]
    (some "zz@q.r") 8500 (by decide) (by decide)).2.2.1

/-- Claim C8: every triggering of the update action ends in one of three
user-visible outcomes — a successful output, an error message with no
output dataset, or the mapping warning; a load failure or empty mapping
sheet yields the warning, and every reconciliation error is rendered as a
failure message, none escaping as an unhandled fault. -/
theorem c8_failures_are_recoverable (dfA dfB : DataFrame)
    (mp : Except String DataFrame) (uc : String) :
    ((∃ r, runApp dfA dfB mp uc = AppResult.success r) ∨
      (∃ e, runApp dfA dfB mp uc = AppResult.failure e) ∨
      runApp dfA dfB mp uc = AppResult.mappingWarning) ∧
    (∀ e, mp = Except.error e → runApp dfA dfB mp uc = AppResult.mappingWarning) ∧
    (∀ m, mp = Except.ok m → ¬ m.rows = [] →
      (∀ e, reconcile dfA dfB m uc = Except.error e →
        runApp dfA dfB mp uc = AppResult.failure e) ∧
      (∀ r, reconcile dfA dfB m uc = Except.ok r →
        runApp dfA dfB mp uc = AppResult.success r)) := by
  refine ⟨?_, ?_, ?_⟩
  · cases mp with
    | error e => exact Or.inr (Or.inr rfl)
    | ok m =>
        by_cases hm : m.rows = []
        · exact Or.inr (Or.inr (by simp [runApp, hm]))
        · cases hr : reconcile dfA dfB m uc with
          | ok r => exact Or.inl ⟨r, by simp [runApp, hm, hr]⟩
          | error e => exact Or.inr (Or.inl ⟨e, by simp [runApp, hm, hr]⟩)
  · intro e he
    subst he
    rfl
  · intro m hm hne
    subst hm
    exact ⟨fun e hre => by simp [runApp, hne, hre],
      fun r hrr => by simp [runApp, hne, hrr]⟩

/-- Witness for C8: a grade book lacking the email column makes the
reconciliation fail, and the action renders that as a failure message. -/
theorem c8_failures_are_recoverable_witness :
    runApp (⟨[ "X" ], []⟩ : DataFrame) wLiveScores (Except.ok wIdentityMap) "X" =
      AppResult.failure "missing column: SIS Login ID" :=
  ((c8_failures_are_recoverable ⟨[ "X" ], []⟩ wLiveScores (Except.ok wIdentityMap) "X").2.2
      wIdentityMap rfl (by decide)).1 "missing column: SIS Login ID" rfl

/-- Claim C5: on every successful reconciliation, the updated count plus
the not-found count equals the number of grade-book rows: the two counts
are the lengths of complementary filters of the one `New Score` column,
which has one entry per grade-book row. -/
theorem c5_counts_partition (dfA dfB dfM : DataFrame) (uc : String) (r : ReconOut)
    (h : reconcile dfA dfB dfM uc = Except.ok r) :
    r.updated + r.notFound = dfA.rows.length := by
  unfold reconcile at h
  split at h
  · rename_i eA eM iM iB tt h1 h2 h3 h4 h5
    split at h
    · exact Except.noConfusion h
    · injection h with h2
      subst h2
      show ((newScoresOf eM iM eA iB tt).filter Option.isSome).length +
        ((newScoresOf eM iM eA iB tt).filter Option.isNone).length = dfA.rows.length
      rw [filterSome_add_filterNone]
      have hl := getCol_ok_length h1
      simpa [newScoresOf, stripCols] using hl
  · exact Except.noConfusion h
  · exact Except.noConfusion h
  · exact Except.noConfusion h
  · exact Except.noConfusion h
  · exact Except.noConfusion h

/-- Witness for C5 at the small fixtures: one updated row plus one
not-found row equals the two grade-book rows. -/
theorem c5_counts_partition_witness :
    wRecon.updated + wRecon.notFound = wGradeBook.rows.length :=
  c5_counts_partition wGradeBook wLiveScores wIdentityMap "Score" wRecon rfl

theorem filter_append_singleton_false {p : String → Bool} (X : List String) (a : String)
    (ha : p a = false) : (X ++ [ a ]).filter p = X.filter p := by
  rw [List.filter_append]
  simp [List.filter_cons, ha]

theorem joined_cols_cases (dfA1 : DataFrame) (v1 v2 v3 v4 : List Cell)
    (hmem : "SIS Login ID" ∈ dfA1.cols) :
    (setCol (setCol (setCol (setCol dfA1 "SIS Login ID" v1) "Student ID Number" v2)
        "Student ID Number" v3) "New Score" v4).cols = dfA1.cols ∨
    (setCol (setCol (setCol (setCol dfA1 "SIS Login ID" v1) "Student ID Number" v2)
        "Student ID Number" v3) "New Score" v4).cols = dfA1.cols ++ [ "Student ID Number" ] ∨
    (setCol (setCol (setCol (setCol dfA1 "SIS Login ID" v1) "Student ID Number" v2)
        "Student ID Number" v3) "New Score" v4).cols = dfA1.cols ++ [ "New Score" ] ∨
    (setCol (setCol (setCol (setCol dfA1 "SIS Login ID" v1) "Student ID Number" v2)
        "Student ID Number" v3) "New Score" v4).cols =
      dfA1.cols ++ [ "Student ID Number" ] ++ [ "New Score" ] := by
  have e2 : (setCol dfA1 "SIS Login ID" v1).cols = dfA1.cols :=
    setCol_cols_of_mem hmem v1
  have e4 : (setCol (setCol (setCol dfA1 "SIS Login ID" v1) "Student ID Number" v2)
      "Student ID Number" v3).cols =
      (setCol (setCol dfA1 "SIS Login ID" v1) "Student ID Number" v2).cols :=
    setCol_cols_of_mem (mem_setCol_self _ _ _) v3
  rcases setCol_cols_cases (setCol dfA1 "SIS Login ID" v1) "Student ID Number" v2
      with ⟨_, e3⟩ | e3 <;>
    rcases setCol_cols_cases (setCol (setCol (setCol dfA1 "SIS Login ID" v1)
        "Student ID Number" v2) "Student ID Number" v3) "New Score" v4 with ⟨_, e5⟩ | e5
  · exact Or.inl (by rw [e5, e4, e3, e2])
  · exact Or.inr (Or.inr (Or.inl (by rw [e5, e4, e3, e2])))
  · exact Or.inr (Or.inl (by rw [e5, e4, e3, e2]))
  · exact Or.inr (Or.inr (Or.inr (by rw [e5, e4, e3, e2])))

/-- Claim C9: on every successful reconciliation the output dataset's
columns are exactly the stripped input grade-book columns with every
column named `Student ID Number` or `New Score` removed: the join
overwrites any input column of those names and `drop` removes them, while
all other columns are carried through in order. -/
theorem c9_temp_columns_dropped (dfA dfB dfM : DataFrame) (uc : String) (r : ReconOut)
    (h : reconcile dfA dfB dfM uc = Except.ok r) :
    r.out.cols = (dfA.cols.map pyStrip).filter
        (fun c => !([ "Student ID Number", "New Score" ].contains c)) ∧
    ¬ "Student ID Number" ∈ r.out.cols ∧ ¬ "New Score" ∈ r.out.cols := by
  unfold reconcile at h
  split at h
  · rename_i eA eM iM iB tt h1 h2 h3 h4 h5
    split at h
    · exact Except.noConfusion h
    · rename_i colVals h6
      injection h with h2
      subst h2
      dsimp only
      have hmain : (dropCols (setCol (joinedGradeBook (stripCols dfA) eA eM iM iB tt) uc
          (List.zipWith updateCell (newScoresOf eM iM eA iB tt) colVals))
          [ "Student ID Number", "New Score" ]).cols =
          (dfA.cols.map pyStrip).filter
            (fun c => !([ "Student ID Number", "New Score" ].contains c)) := by
        rw [dropCols_cols]
        rw [setCol_cols_of_mem (getCol_ok_mem h6)]
        have hmemE : "SIS Login ID" ∈ (stripCols dfA).cols := getCol_ok_mem h1
        unfold joinedGradeBook
        rcases joined_cols_cases (stripCols dfA) (eA.map (fun c => some (normEmail c)))
            (eA.map (mappedId (email2idPairs eM iM)))
            (eA.map (fun c => some (gradeId (email2idPairs eM iM) c)))
            ((newScoresOf eM iM eA iB tt).map (fun o => o.map format2f)) hmemE
          with hJ | hJ | hJ | hJ
        · rw [hJ]
          rfl
        · rw [hJ, filter_append_singleton_false _ _ (by decide)]
          rfl
        · rw [hJ, filter_append_singleton_false _ _ (by decide)]
          rfl
        · rw [hJ, filter_append_singleton_false _ _ (by decide),
            filter_append_singleton_false _ _ (by decide)]
          rfl
      refine ⟨hmain, ?_, ?_⟩
      · intro hmem
        rw [hmain] at hmem
        exact absurd (List.mem_filter.mp hmem).2 (by decide)
      · intro hmem
        rw [hmain] at hmem
        exact absurd (List.mem_filter.mp hmem).2 (by decide)
  · exact Except.noConfusion h
  · exact Except.noConfusion h
  · exact Except.noConfusion h
  · exact Except.noConfusion h
  · exact Except.noConfusion h

/-- Witness for C9 at the small fixtures: the output columns are the two
input columns, the join columns absent. -/
theorem c9_temp_columns_dropped_witness :
    wRecon.out.cols = (wGradeBook.cols.map pyStrip).filter
        (fun c => !([ "Student ID Number", "New Score" ].contains c)) ∧
    ¬ "Student ID Number" ∈ wRecon.out.cols ∧ ¬ "New Score" ∈ wRecon.out.cols :=
  c9_temp_columns_dropped wGradeBook wLiveScores wIdentityMap "Score" wRecon rfl

theorem reconcile_ok_form (dfA dfB dfM : DataFrame) (uc : String)
    (emailsA emailsM idsM idsB tots colVals : List Cell)
    (h1 : getCol (stripCols dfA) "SIS Login ID" = Except.ok emailsA)
    (h2 : getCol (stripCols dfM) "email" = Except.ok emailsM)
    (h3 : getCol (stripCols dfM) "Student ID Number" = Except.ok idsM)
    (h4 : getCol (stripCols dfB) "Student ID Number" = Except.ok idsB)
    (h5 : getCol (stripCols dfB) "Total" = Except.ok tots)
    (h6 : getCol (joinedGradeBook (stripCols dfA) emailsA emailsM idsM idsB tots) uc =
      Except.ok colVals) :
    reconcile dfA dfB dfM uc = Except.ok
      ⟨dropCols (setCol (joinedGradeBook (stripCols dfA) emailsA emailsM idsM idsB tots) uc
          (List.zipWith updateCell (newScoresOf emailsM idsM emailsA idsB tots) colVals))
        [ "Student ID Number", "New Score" ],
       ((newScoresOf emailsM idsM emailsA idsB tots).filter Option.isSome).length,
       ((newScoresOf emailsM idsM emailsA idsB tots).filter Option.isNone).length⟩ := by
  simp only [reconcile, h1, h2, h3, h4, h5, h6]

/-- Claim C7 as amended: header matching trims surrounding whitespace but
is case-sensitive — whenever each dataset carries the required column
names up to surrounding whitespace in the headers (and the chosen target
column exists in the grade book), every lookup succeeds and the
reconciliation runs to completion. -/
theorem c7_amended_whitespace_insensitive_headers (dfA dfB dfM : DataFrame) (uc : String)
    (hA : "SIS Login ID" ∈ dfA.cols.map pyStrip)
    (hM1 : "email" ∈ dfM.cols.map pyStrip)
    (hM2 : "Student ID Number" ∈ dfM.cols.map pyStrip)
    (hB1 : "Student ID Number" ∈ dfB.cols.map pyStrip)
    (hB2 : "Total" ∈ dfB.cols.map pyStrip)
    (huc : uc ∈ dfA.cols.map pyStrip) :
    ∃ r, reconcile dfA dfB dfM uc = Except.ok r := by
  rcases @getCol_ok_of_mem (stripCols dfA) "SIS Login ID" hA with ⟨emailsA, h1⟩
  rcases @getCol_ok_of_mem (stripCols dfM) "email" hM1 with ⟨emailsM, h2⟩
  rcases @getCol_ok_of_mem (stripCols dfM) "Student ID Number" hM2 with ⟨idsM, h3⟩
  rcases @getCol_ok_of_mem (stripCols dfB) "Student ID Number" hB1 with ⟨idsB, h4⟩
  rcases @getCol_ok_of_mem (stripCols dfB) "Total" hB2 with ⟨tots, h5⟩
  have hucj : uc ∈ (joinedGradeBook (stripCols dfA) emailsA emailsM idsM idsB tots).cols := by
    unfold joinedGradeBook
    exact mem_setCol_of_mem (mem_setCol_of_mem (mem_setCol_of_mem
      (mem_setCol_of_mem huc _ _) _ _) _ _) _ _
  rcases @getCol_ok_of_mem (joinedGradeBook (stripCols dfA) emailsA emailsM idsM idsB tots)
      uc hucj with ⟨colVals, h6⟩
  exact ⟨_, reconcile_ok_form dfA dfB dfM uc emailsA emailsM idsM idsB tots colVals
    h1 h2 h3 h4 h5 h6⟩

/-- Witness for the amended C7: headers carrying extra surrounding
whitespace are accepted and reconciliation succeeds. -/
theorem c7_amended_whitespace_insensitive_headers_witness :
    ∃ r, reconcile wsGradeBook wLiveScores wIdentityMap "Score" = Except.ok r :=
  c7_amended_whitespace_insensitive_headers wsGradeBook wLiveScores wIdentityMap "Score"
    (by decide) (by decide) (by decide) (by decide) (by decide) (by decide)

/-- Claim C7 counterexample: a grade book whose email header differs from
`SIS Login ID` only in letter case is not matched — the lookup fails and
processing aborts instead of proceeding, so header matching is not
case-insensitive. -/
theorem c7_case_differing_header_rejected :
    reconcile caseGradeBook wLiveScores wIdentityMap "Score" =
      Except.error "missing column: SIS Login ID" := rfl
